import Mathlib

/-!
Shallow embedding of the policy-gated dynamic AWS API invoker of
`src/agents/investigator/agent.py` (functions `is_read_operation`,
`json_serializer`, `invoke_aws_api`) and of the alarm-creation tool
`put_metric_alarm` of `src/agents/alarming/agent.py`.

Python runtime values that can appear in a parsed parameter payload or in
a provider response are modelled by `PyValue`; the external world (the
`json` module's parser, `boto3.client`, `getattr` resolution of an
operation on a client, and the live network call) is a parameter `Env`.
Side effects are made observable as a trace of `Event`s returned next to
the result, so that statements such as "the provider is never called" or
"the classifier is never consulted" become statements about the trace.
-/

/-- Python/JSON-like runtime values. `pydatetime iso sf` is a
`datetime` object carrying its `isoformat()` rendering `iso` and its
`str()` rendering `sf`; `pyraw ty sf` is any other object that the `json`
module cannot encode (type name `ty`, `str()` rendering `sf`). -/
inductive PyValue where
  | pystr (s : String)
  | pyint (n : Int)
  | pybool (b : Bool)
  | pynone
  | pydatetime (iso : String) (sf : String)
  | pyraw (ty : String) (sf : String)
  | pylist (xs : List PyValue)
  | pydict (kvs : List (String × PyValue))
deriving Repr

/-- Model of Python's `is None` test on a parsed JSON payload. -/
def isPyNone : PyValue → Bool
  | .pynone => true
  | _ => false

/-- The allow-list of read-only verb stems, verbatim from
`is_read_operation` in `src/agents/investigator/agent.py` lines 25-29. -/
def read_prefixes : List String :=
  ["describe", "list", "get", "fetch", "read", "query", "search",
   "lookup", "find", "check", "validate", "inspect", "scan",
   "head", "exists", "count", "estimate", "preview", "show", "filter"]

/-- Model of Python's `str.lower()` (ASCII case mapping, applied to every
character of the string). -/
def pyLower (s : String) : String :=
  ⟨s.data.map Char.toLower⟩

/-- Model of Python's `s.startswith(p)`: `p`'s characters are an initial
segment of `s`'s. -/
def pyStartsWith (s p : String) : Bool :=
  p.data.isPrefixOf s.data

/-- `is_read_operation` from `src/agents/investigator/agent.py` line 30:
`any(operation.lower().startswith(p) for p in read_prefixes)`. -/
def is_read_operation (operation : String) : Bool :=
  read_prefixes.any (fun p => pyStartsWith (pyLower operation) p)

mutual
/-- Model of `json.loads(json.dumps(response, default=json_serializer))`:
JSON-native values pass through, a `datetime` is replaced by its
`isoformat()` string (that is what `json_serializer` in
`src/agents/investigator/agent.py` lines 32-35 returns for it), and any
other non-native object makes `json_serializer` raise `TypeError`, so the
whole encoding fails (`none`). -/
def serialize_roundtrip : PyValue → Option PyValue
  | .pystr s => some (.pystr s)
  | .pyint n => some (.pyint n)
  | .pybool b => some (.pybool b)
  | .pynone => some .pynone
  | .pydatetime iso _ => some (.pystr iso)
  | .pyraw _ _ => none
  | .pylist xs => (serializeList xs).map PyValue.pylist
  | .pydict kvs => (serializeDict kvs).map PyValue.pydict

/-- Elementwise serialization of a Python list (first failure aborts). -/
def serializeList : List PyValue → Option (List PyValue)
  | [] => some []
  | x :: xs =>
    match serialize_roundtrip x, serializeList xs with
    | some y, some ys => some (y :: ys)
    | _, _ => none

/-- Valuewise serialization of a Python dict (first failure aborts). -/
def serializeDict : List (String × PyValue) → Option (List (String × PyValue))
  | [] => some []
  | kv :: kvs =>
    match serialize_roundtrip kv.2, serializeDict kvs with
    | some w, some ws => some ((kv.1, w) :: ws)
    | _, _ => none
end

mutual
/-- Model of Python's `str(value)`: leaves carry their own rendering,
composites are rendered structurally. -/
def pyStr : PyValue → String
  | .pystr s => s
  | .pyint n => toString n
  | .pybool b => if b then "True" else "False"
  | .pynone => "None"
  | .pydatetime _ sf => sf
  | .pyraw _ sf => sf
  | .pylist xs => "[" ++ pyStrList xs ++ "]"
  | .pydict kvs => "\x7b" ++ pyStrDict kvs ++ "\x7d"

/-- Comma-joined renderings of a list's elements. -/
def pyStrList : List PyValue → String
  | [] => ""
  | [x] => pyStr x
  | x :: xs => pyStr x ++ ", " ++ pyStrList xs

/-- Comma-joined renderings of a dict's entries. -/
def pyStrDict : List (String × PyValue) → String
  | [] => ""
  | [kv] => kv.1 ++ ": " ++ pyStr kv.2
  | kv :: kvs => kv.1 ++ ": " ++ pyStr kv.2 ++ ", " ++ pyStrDict kvs
end

/-- `serialized_response` as computed in `invoke_aws_api` lines 76-79: the
JSON round-trip when it succeeds, else the fallback `str(response)`. -/
def serialized_response (response : PyValue) : PyValue :=
  match serialize_roundtrip response with
  | some v => v
  | none => .pystr (pyStr response)

/-- Observable side effects of one tool invocation. -/
inductive Event where
  | classifierQuery (operation : String)
  | clientCreate (service : String)
  | apiCall (service : String) (operation : String) (params : PyValue)
deriving Repr

/-- The dictionary returned by `invoke_aws_api`: either the success shape
of lines 81-86 or the `{"error": ...}` shape of the early returns. -/
inductive InvocationResult where
  | success (function : String) (service : String) (operation : String) (response : PyValue)
  | failure (error : String)
deriving Repr

/-- The dictionary returned by `put_metric_alarm`: either the success
shape of lines 121-125 of `src/agents/alarming/agent.py` (note: the raw,
unserialized response) or the `{"error": ...}` shape. -/
inductive AlarmResult where
  | success (function : String) (alarm_name : String) (response : PyValue)
  | failure (error : String)
deriving Repr

/-- The external world: `parse` is `json.loads` (`Except` error carries
the parser message), `client` is `boto3.client` (which may raise),
`resolve` is `getattr(client, operation, None) is not None`, and `call`
is the live network call (which may raise; the exception's `str()` is the
error). -/
structure Env where
  parse : String → Except String PyValue
  client : String → Except String Unit
  resolve : String → String → Bool
  call : String → String → PyValue → Except String PyValue

/-- `invoke_aws_api` from `src/agents/investigator/agent.py` lines 38-88,
with its side effects recorded in a trace. The branches appear in source
order: JSON parse of `parameters` (with `null` normalized to `{}`), the
read-only gate, the empty-service and empty-operation checks, client
creation, `getattr` resolution, the call, and response serialization. -/
def invoke_aws_api (env : Env) (service operation parameters : String) :
    InvocationResult × List Event :=
  match env.parse parameters with
  | .error e => (.failure ("Invalid JSON in parameters: " ++ e), [])
  | .ok parsed =>
  let api_parameters := if isPyNone parsed then PyValue.pydict [] else parsed
  if is_read_operation operation = false then
    (.failure ("Operation '" ++ operation ++ "' is not allowed. Only read operations are permitted."),
     [.classifierQuery operation])
  else if service = "" then
    (.failure "Service name must be specified for invoking AWS API operations.",
     [.classifierQuery operation])
  else if operation = "" then
    (.failure "Operation name must be specified for invoking AWS API operations.",
     [.classifierQuery operation])
  else
  match env.client service with
  | .error e => (.failure e, [.classifierQuery operation, .clientCreate service])
  | .ok _ =>
  if env.resolve service operation = false then
    (.failure ("Operation '" ++ operation ++ "' not found in service '" ++ service ++ "'"),
     [.classifierQuery operation, .clientCreate service])
  else
  match env.call service operation api_parameters with
  | .error e =>
    (.failure e,
     [.classifierQuery operation, .clientCreate service, .apiCall service operation api_parameters])
  | .ok response =>
    (.success "invoke_aws_api" service operation (serialized_response response),
     [.classifierQuery operation, .clientCreate service, .apiCall service operation api_parameters])

/-- The arguments of `put_metric_alarm` (`src/agents/alarming/agent.py`
lines 38-54). `metricNamespace` is the Python argument `namespace` (a
reserved word in Lean); `threshold` is a Python float forwarded opaquely,
so it is carried as a `PyValue`. -/
structure AlarmArgs where
  alarm_name : String
  comparison_operator : String
  evaluation_periods : Int
  metric_name : String
  metricNamespace : String
  period : Int
  statistic : String
  threshold : PyValue
  actions_enabled : Bool
  alarm_description : String
  datapoints_to_alarm : Option Int
  dimensions : String
  insufficient_data_actions : String
  ok_actions : String
  treat_missing_data : String
  unit : Option String

/-- The hard-coded alarm action attached to every created alarm
(`src/agents/alarming/agent.py` lines 106-108). -/
def invokeInvestigatorArn : String :=
  "arn:aws:lambda:us-east-1:129463259399:function:invoke-investigator"

/-- The `params` dict built in `put_metric_alarm` lines 90-115: the fixed
entries in source order (including the hard-coded `AlarmActions`),
followed by the optional `DatapointsToAlarm` and `Unit` entries. -/
def build_alarm_params (a : AlarmArgs)
    (dimensions_list insufficient_data_actions_list ok_actions_list : PyValue) :
    List (String × PyValue) :=
  [("AlarmName", .pystr a.alarm_name),
   ("ComparisonOperator", .pystr a.comparison_operator),
   ("EvaluationPeriods", .pyint a.evaluation_periods),
   ("MetricName", .pystr a.metric_name),
   ("Namespace", .pystr a.metricNamespace),
   ("Period", .pyint a.period),
   ("Statistic", .pystr a.statistic),
   ("Threshold", a.threshold),
   ("ActionsEnabled", .pybool a.actions_enabled),
   ("AlarmDescription", .pystr a.alarm_description),
   ("Dimensions", dimensions_list),
   ("InsufficientDataActions", insufficient_data_actions_list),
   ("OKActions", ok_actions_list),
   ("TreatMissingData", .pystr a.treat_missing_data),
   ("AlarmActions", .pylist [.pystr invokeInvestigatorArn])]
  ++ (match a.datapoints_to_alarm with
      | some d => [("DatapointsToAlarm", PyValue.pyint d)]
      | none => [])
  ++ (match a.unit with
      | some u => [("Unit", PyValue.pystr u)]
      | none => [])

/-- `put_metric_alarm` from `src/agents/alarming/agent.py` lines 38-127,
with its side effects recorded in a trace: the three JSON parses in
source order, then the params build, the `cloudwatch` client creation and
the direct (statically named) `put_metric_alarm` call. No classifier is
consulted anywhere on this path. -/
def put_metric_alarm (env : Env) (a : AlarmArgs) : AlarmResult × List Event :=
  match env.parse a.dimensions with
  | .error e => (.failure ("Invalid JSON in parameters: " ++ e), [])
  | .ok dimensions_list =>
  match env.parse a.insufficient_data_actions with
  | .error e => (.failure ("Invalid JSON in parameters: " ++ e), [])
  | .ok insufficient_data_actions_list =>
  match env.parse a.ok_actions with
  | .error e => (.failure ("Invalid JSON in parameters: " ++ e), [])
  | .ok ok_actions_list =>
  let params := build_alarm_params a dimensions_list insufficient_data_actions_list ok_actions_list
  match env.client "cloudwatch" with
  | .error e => (.failure e, [.clientCreate "cloudwatch"])
  | .ok _ =>
  match env.call "cloudwatch" "put_metric_alarm" (.pydict params) with
  | .error e =>
    (.failure e,
     [.clientCreate "cloudwatch", .apiCall "cloudwatch" "put_metric_alarm" (.pydict params)])
  | .ok response =>
    (.success "put_metric_alarm" a.alarm_name response,
     [.clientCreate "cloudwatch", .apiCall "cloudwatch" "put_metric_alarm" (.pydict params)])

/-- A concrete environment used to instantiate the theorems: it parses
the two literal texts the examples use, exposes `describe_instances` on
`ec2`, and answers that call with an empty reservation list. -/
def sampleEnv : Env where
  parse s :=
    if s = "\x7b\x7d" then .ok (.pydict [])
    else if s = "null" then .ok .pynone
    else if s = "[]" then .ok (.pylist [])
    else .error "Expecting value: line 1 column 1 (char 0)"
  client _ := .ok ()
  resolve s o := s = "ec2" && o = "describe_instances"
  call _ _ _ := .ok (.pydict [("Reservations", .pylist [])])

/-- Does `sub` occur as a contiguous segment of the list? -/
def hasInfix (sub : List Char) : List Char → Bool
  | [] => sub.isEmpty
  | c :: t => sub.isPrefixOf (c :: t) || hasInfix sub t

/-- Does the message `msg` mention `phrase`, i.e. contain it as a
contiguous substring? -/
def mentions (msg phrase : String) : Bool :=
  hasInfix phrase.data msg.data

/-- The error text of a result, `""` on success (used to state what a
`Failure` message mentions). -/
def errorText : InvocationResult → String
  | .success _ _ _ _ => ""
  | .failure e => e

/-! Helper lemmas about the case mapping and substring occurrence. -/

/-- `Char.ofNat` of a valid scalar value codes back to that value. -/
theorem char_toNat_ofNat_valid (n : Nat) (h : n.isValidChar) : (Char.ofNat n).toNat = n := by
  simp [Char.ofNat, h, Char.ofNatAux, Char.toNat, UInt32.toNat, BitVec.toNat_ofNatLt]

/-- The code of a lower-cased character: shifted by 32 on `A`-`Z`,
unchanged elsewhere. -/
theorem char_toLower_toNat (c : Char) :
    (Char.toLower c).toNat = if c.toNat ≥ 65 ∧ c.toNat ≤ 90 then c.toNat + 32 else c.toNat := by
  simp only [Char.toLower]
  split
  · next h => exact char_toNat_ofNat_valid _ (Or.inl (by omega))
  · rfl

/-- A character outside `A`-`Z` is a fixed point of `Char.toLower`. -/
theorem char_toLower_fix (d : Char) (hd : ¬(d.toNat ≥ 65 ∧ d.toNat ≤ 90)) :
    Char.toLower d = d := by
  simp only [Char.toLower]
  rw [if_neg hd]

/-- `Char.toLower` is idempotent. -/
theorem char_toLower_idem (c : Char) : Char.toLower (Char.toLower c) = Char.toLower c := by
  have h1 := char_toLower_toNat c
  apply char_toLower_fix
  by_cases h : c.toNat ≥ 65 ∧ c.toNat ≤ 90
  · rw [if_pos h] at h1
    omega
  · rw [if_neg h] at h1
    omega

/-- The model of Python's `str.lower()` is idempotent. -/
theorem pyLower_idem (s : String) : pyLower (pyLower s) = pyLower s := by
  simp [pyLower, List.map_map, Function.comp_def, char_toLower_idem]

/-- An occurrence in a suffix is an occurrence in the whole list. -/
theorem hasInfix_append_left (sub t : List Char) (h : hasInfix sub t = true) :
    ∀ l : List Char, hasInfix sub (l ++ t) = true := by
  intro l
  induction l with
  | nil => simpa using h
  | cons c cs ih =>
    simp only [List.cons_append, hasInfix, Bool.or_eq_true]
    exact Or.inr ih

/-- A phrase mentioned by the last of three concatenated pieces is
mentioned by the whole message. -/
theorem mentions_append_right (pre mid suf phrase : String)
    (h : mentions suf phrase = true) :
    mentions (pre ++ mid ++ suf) phrase = true := by
  simp only [mentions, String.data_append]
  rw [List.append_assoc]
  exact hasInfix_append_left _ _ (hasInfix_append_left _ _ h _) _

/-! The claims. -/

/-- C5: classifier prefix matching is substring-based, not word-boundary
based: `is_read_operation "getting_started_guide"` is `true`, because the
lower-cased name starts with the allow-listed stem `"get"` even though
`"get"` is not a whole word of the name. -/
theorem is_read_operation_substring_matching :
    is_read_operation "getting_started_guide" = true
    ∧ pyStartsWith (pyLower "getting_started_guide") "get" = true
    ∧ ("get" : String) ∈ read_prefixes := by
  refine ⟨by decide, by decide, by decide⟩

/-- C6: `is_read_operation` is total over strings and returns `false` for
every name whose lower-cased form starts with none of the twenty
allow-listed stems; in particular `"terminate_instance"` and the empty
string are classified `false`. -/
theorem is_read_operation_false_outside_allowlist :
    (∀ n : String, (∀ p ∈ read_prefixes, pyStartsWith (pyLower n) p = false) →
      is_read_operation n = false)
    ∧ is_read_operation "terminate_instance" = false
    ∧ is_read_operation "" = false := by
  refine ⟨?_, by decide, by decide⟩
  intro n h
  simp only [is_read_operation, List.any_eq_false]
  intro p hp
  simp [h p hp]

/-- Witness for C6: the hypothesis holds at `"terminate_instance"` and the
theorem yields the classification there. -/
theorem is_read_operation_false_outside_allowlist_witness :
    (∀ p ∈ read_prefixes, pyStartsWith (pyLower "terminate_instance") p = false)
    ∧ is_read_operation "terminate_instance" = false := by
  refine ⟨by decide, ?_⟩
  exact is_read_operation_false_outside_allowlist.1 "terminate_instance" (by decide)

/-- C7: the classifier is case-insensitive: it agrees on every name and
its lower-cased form; e.g. `"DescribeInstances"` is read-only and
`"PutMetricAlarm"` is not. -/
theorem is_read_operation_case_insensitive :
    (∀ n : String, is_read_operation n = is_read_operation (pyLower n))
    ∧ is_read_operation "DescribeInstances" = true
    ∧ is_read_operation "PutMetricAlarm" = false := by
  refine ⟨?_, by decide, by decide⟩
  intro n
  simp [is_read_operation, pyLower_idem]

/-- An occurrence in a piece survives appending on the right. -/
theorem hasInfix_append_right (sub l : List Char) (h : hasInfix sub l = true) :
    ∀ t : List Char, hasInfix sub (l ++ t) = true := by
  intro t
  induction l with
  | nil =>
    have hsub : sub = [] := by simpa [hasInfix, List.isEmpty_iff] using h
    subst hsub
    cases t with
    | nil => simp [hasInfix]
    | cons c cs => simp [hasInfix, List.isPrefixOf]
  | cons c cs ih =>
    simp only [hasInfix, Bool.or_eq_true] at h
    simp only [List.cons_append, hasInfix, Bool.or_eq_true]
    rcases h with h | h
    · left
      rw [List.isPrefixOf_iff_prefix] at h ⊢
      exact h.trans (List.prefix_append _ _)
    · exact Or.inr (ih h)

/-- The invalid-JSON failure text starts with the letter I whatever the
parser message is. -/
theorem invalid_json_msg_head (e : String) :
    ("Invalid JSON in parameters: " ++ e).data.head? = some 'I' := by
  rw [String.data_append]
  rfl

/-- C1: a call whose operation fails `is_read_operation` (such as
`invoke_aws_api "ec2" "terminate_instances" "{}"`) returns a `Failure`
that mentions "not allowed", and no client is constructed and no provider
call occurs: the trace holds only the classifier query. -/
theorem invoke_aws_api_write_gate (env : Env) (service operation parameters : String)
    (parsed : PyValue) (hp : env.parse parameters = Except.ok parsed)
    (hop : is_read_operation operation = false) :
    invoke_aws_api env service operation parameters
      = (.failure ("Operation '" ++ operation ++ "' is not allowed. Only read operations are permitted."),
         [.classifierQuery operation])
    ∧ mentions (errorText (invoke_aws_api env service operation parameters).1) "not allowed" = true
    ∧ (∀ s, Event.clientCreate s ∉ (invoke_aws_api env service operation parameters).2)
    ∧ (∀ s o p, Event.apiCall s o p ∉ (invoke_aws_api env service operation parameters).2) := by
  have hmain : invoke_aws_api env service operation parameters
      = (.failure ("Operation '" ++ operation ++ "' is not allowed. Only read operations are permitted."),
         [.classifierQuery operation]) := by
    unfold invoke_aws_api
    rw [hp]
    simp [hop]
  refine ⟨hmain, ?_, ?_, ?_⟩
  · rw [hmain]
    exact mentions_append_right "Operation '" operation
      "' is not allowed. Only read operations are permitted." "not allowed" (by decide)
  · intro s
    rw [hmain]
    simp
  · intro s o p
    rw [hmain]
    simp

/-- Witness for C1: the concrete call of the spec, under `sampleEnv`. -/
theorem invoke_aws_api_write_gate_witness :
    invoke_aws_api sampleEnv "ec2" "terminate_instances" "\x7b\x7d"
      = (.failure "Operation 'terminate_instances' is not allowed. Only read operations are permitted.",
         [.classifierQuery "terminate_instances"])
    ∧ Event.clientCreate "ec2" ∉ (invoke_aws_api sampleEnv "ec2" "terminate_instances" "\x7b\x7d").2
    ∧ Event.apiCall "ec2" "terminate_instances" (PyValue.pydict [])
        ∉ (invoke_aws_api sampleEnv "ec2" "terminate_instances" "\x7b\x7d").2 := by
  have h := invoke_aws_api_write_gate sampleEnv "ec2" "terminate_instances" "\x7b\x7d"
    (.pydict []) rfl (by decide)
  exact ⟨h.1, h.2.2.1 "ec2", h.2.2.2 "ec2" "terminate_instances" (PyValue.pydict [])⟩

/-- C2 counterexample: `invoke_aws_api "ec2" "" "{}"` does not mention
"Operation name must be specified"; it is rejected by the read-only gate
first, with the "not allowed" message. -/
theorem invoke_blank_operation_counterexample :
    mentions (errorText (invoke_aws_api sampleEnv "ec2" "" "\x7b\x7d").1)
        "Operation name must be specified" = false
    ∧ (invoke_aws_api sampleEnv "ec2" "" "\x7b\x7d").1
        = .failure "Operation '' is not allowed. Only read operations are permitted." :=
  ⟨by decide, rfl⟩

/-- C2 amended: a blank service (with a read-allowed operation) is
rejected with the dedicated "Service name must be specified" message, but
a blank operation never reaches its dedicated check: the read-only gate
rejects it first with the "not allowed" message. -/
theorem invoke_blank_identifier_rejection :
    (∀ (env : Env) (operation parameters : String) (parsed : PyValue),
        env.parse parameters = Except.ok parsed →
        is_read_operation operation = true →
        invoke_aws_api env "" operation parameters
          = (.failure "Service name must be specified for invoking AWS API operations.",
             [.classifierQuery operation]))
    ∧ (∀ (env : Env) (service parameters : String) (parsed : PyValue),
        env.parse parameters = Except.ok parsed →
        invoke_aws_api env service "" parameters
          = (.failure "Operation '' is not allowed. Only read operations are permitted.",
             [.classifierQuery ""])) := by
  constructor
  · intro env operation parameters parsed hp hro
    unfold invoke_aws_api
    rw [hp]
    simp [hro]
  · intro env service parameters parsed hp
    unfold invoke_aws_api
    rw [hp]
    simp [show is_read_operation "" = false by decide]

/-- Witness for the amended C2: both rejections at concrete inputs. -/
theorem invoke_blank_identifier_rejection_witness :
    invoke_aws_api sampleEnv "" "describe_x" "\x7b\x7d"
      = (.failure "Service name must be specified for invoking AWS API operations.",
         [.classifierQuery "describe_x"])
    ∧ invoke_aws_api sampleEnv "ec2" "" "\x7b\x7d"
      = (.failure "Operation '' is not allowed. Only read operations are permitted.",
         [.classifierQuery ""]) :=
  ⟨invoke_blank_identifier_rejection.1 sampleEnv "describe_x" "\x7b\x7d" (.pydict []) rfl (by decide),
   invoke_blank_identifier_rejection.2 sampleEnv "ec2" "\x7b\x7d" (.pydict []) rfl⟩

/-- C3 counterexample: `invoke_aws_api "ec2" "nonexistent_op_xyz" "{}"`
does not mention "not found": the name lacks a read stem, so the gate
rejects it with the "not allowed" message before resolution. -/
theorem invoke_nonexistent_op_counterexample :
    mentions (errorText (invoke_aws_api sampleEnv "ec2" "nonexistent_op_xyz" "\x7b\x7d").1)
        "not found" = false
    ∧ (invoke_aws_api sampleEnv "ec2" "nonexistent_op_xyz" "\x7b\x7d").1
        = .failure "Operation 'nonexistent_op_xyz' is not allowed. Only read operations are permitted." :=
  ⟨by decide, rfl⟩

/-- C3 amended: an operation that passes the read-only gate but does not
resolve to an action of the named service yields the resolution failure
"Operation '<op>' not found in service '<service>'", which mentions "not
found". -/
theorem invoke_unresolved_read_op_not_found (env : Env)
    (service operation parameters : String) (parsed : PyValue)
    (hp : env.parse parameters = Except.ok parsed)
    (hro : is_read_operation operation = true)
    (hs : service ≠ "")
    (hc : env.client service = Except.ok ())
    (hr : env.resolve service operation = false) :
    invoke_aws_api env service operation parameters
      = (.failure ("Operation '" ++ operation ++ "' not found in service '" ++ service ++ "'"),
         [.classifierQuery operation, .clientCreate service])
    ∧ mentions (errorText (invoke_aws_api env service operation parameters).1) "not found" = true := by
  have hone : ¬ operation = "" := by
    intro hh
    rw [hh] at hro
    exact absurd hro (by decide)
  have hmain : invoke_aws_api env service operation parameters
      = (.failure ("Operation '" ++ operation ++ "' not found in service '" ++ service ++ "'"),
         [.classifierQuery operation, .clientCreate service]) := by
    unfold invoke_aws_api
    rw [hp, hc]
    simp [hro, hs, hone, hr]
  refine ⟨hmain, ?_⟩
  rw [hmain]
  show mentions ("Operation '" ++ operation ++ "' not found in service '" ++ service ++ "'")
      "not found" = true
  simp only [mentions, String.data_append, List.append_assoc]
  exact hasInfix_append_left _ _ (hasInfix_append_left _ _
    (hasInfix_append_right _ _ (by decide) _) _) _

/-- Witness for the amended C3: a read-prefixed name `describe_x` that
`sampleEnv` does not expose on `ec2`. -/
theorem invoke_unresolved_read_op_not_found_witness :
    invoke_aws_api sampleEnv "ec2" "describe_x" "\x7b\x7d"
      = (.failure "Operation 'describe_x' not found in service 'ec2'",
         [.classifierQuery "describe_x", .clientCreate "ec2"])
    ∧ mentions (errorText (invoke_aws_api sampleEnv "ec2" "describe_x" "\x7b\x7d").1)
        "not found" = true := by
  have h := invoke_unresolved_read_op_not_found sampleEnv "ec2" "describe_x" "\x7b\x7d"
    (.pydict []) rfl (by decide) (by decide) rfl rfl
  exact ⟨h.1, h.2⟩

/-- C10: the "Operation name must be specified" branch of
`invoke_aws_api` is dead code: an empty operation never passes the
read-only gate (`is_read_operation "" = false`), so no invocation ever
returns that error message. -/
theorem empty_operation_branch_unreachable :
    (∀ operation : String, is_read_operation operation = true → operation ≠ "")
    ∧ (∀ (env : Env) (service parameters : String),
        (invoke_aws_api env service "" parameters).1
          ≠ .failure "Operation name must be specified for invoking AWS API operations.") := by
  constructor
  · intro operation h heq
    rw [heq] at h
    exact absurd h (by decide)
  · intro env service parameters h
    unfold invoke_aws_api at h
    cases hp : env.parse parameters with
    | error e =>
      rw [hp] at h
      simp only [InvocationResult.failure.injEq] at h
      have h3 : (("Invalid JSON in parameters: " ++ e)).data.head?
          = ("Operation name must be specified for invoking AWS API operations." : String).data.head? :=
        congrArg (fun t : String => t.data.head?) h
      rw [invalid_json_msg_head] at h3
      exact absurd h3 (by decide)
    | ok parsed =>
      rw [hp] at h
      simp [show is_read_operation "" = false by decide] at h

/-- Witness for C10: a read-allowed name is nonempty, and the concrete
blank-operation call does not produce the dead branch's message. -/
theorem empty_operation_branch_unreachable_witness :
    ("get" : String) ≠ ""
    ∧ (invoke_aws_api sampleEnv "ec2" "" "\x7b\x7d").1
        ≠ .failure "Operation name must be specified for invoking AWS API operations." :=
  ⟨empty_operation_branch_unreachable.1 "get" (by decide),
   empty_operation_branch_unreachable.2 sampleEnv "ec2" "\x7b\x7d"⟩

/-- Concrete alarm arguments used to instantiate the `put_metric_alarm`
theorems. -/
def sampleAlarmArgs : AlarmArgs where
  alarm_name := "high-cpu"
  comparison_operator := "GreaterThanThreshold"
  evaluation_periods := 3
  metric_name := "CPUUtilization"
  metricNamespace := "AWS/EC2"
  period := 300
  statistic := "Average"
  threshold := .pyint 80
  actions_enabled := true
  alarm_description := ""
  datapoints_to_alarm := none
  dimensions := "[]"
  insufficient_data_actions := "[]"
  ok_actions := "[]"
  treat_missing_data := "notBreaching"
  unit := none

/-- The trace of one `invoke_aws_api` call has one of four shapes; a
provider call appears only in the last, with the normalized parameters. -/
theorem invoke_aws_api_trace_shape (env : Env) (service operation parameters : String) :
    (invoke_aws_api env service operation parameters).2 = []
    \/ (invoke_aws_api env service operation parameters).2 = [.classifierQuery operation]
    \/ (invoke_aws_api env service operation parameters).2
        = [.classifierQuery operation, .clientCreate service]
    \/ (exists parsed, env.parse parameters = Except.ok parsed
        /\ (invoke_aws_api env service operation parameters).2
            = [.classifierQuery operation, .clientCreate service,
               .apiCall service operation (if isPyNone parsed then PyValue.pydict [] else parsed)]) := by
  unfold invoke_aws_api
  cases hp : env.parse parameters with
  | error e => simp
  | ok parsed =>
    by_cases h1 : is_read_operation operation = false
    . simp [h1]
    . by_cases h2 : service = ""
      . simp [h1, h2]
      . by_cases h3 : operation = ""
        . exfalso
          rw [h3] at h1
          exact h1 (by decide)
        . cases hc : env.client service with
          | error e => simp [h1, h2, h3, hc]
          | ok u =>
            by_cases h4 : env.resolve service operation = false
            . simp [h1, h2, h3, hc, h4]
            . cases hcall : env.call service operation
                  (if isPyNone parsed then PyValue.pydict [] else parsed) with
              | error e =>
                refine Or.inr (Or.inr (Or.inr (Exists.intro parsed (And.intro rfl ?_))))
                simp [h1, h2, h3, hc, h4, hcall]
              | ok v =>
                refine Or.inr (Or.inr (Or.inr (Exists.intro parsed (And.intro rfl ?_))))
                simp [h1, h2, h3, hc, h4, hcall]

/-- The trace of one `put_metric_alarm` call has one of three shapes and
never holds a classifier query; a provider call appears only in the last
shape, with the built parameter dict. -/
theorem put_metric_alarm_trace_shape (env : Env) (a : AlarmArgs) :
    (put_metric_alarm env a).2 = []
    \/ (put_metric_alarm env a).2 = [.clientCreate "cloudwatch"]
    \/ (exists dl il ol, env.parse a.dimensions = Except.ok dl
        /\ env.parse a.insufficient_data_actions = Except.ok il
        /\ env.parse a.ok_actions = Except.ok ol
        /\ (put_metric_alarm env a).2
            = [.clientCreate "cloudwatch",
               .apiCall "cloudwatch" "put_metric_alarm"
                 (.pydict (build_alarm_params a dl il ol))]) := by
  unfold put_metric_alarm
  cases hd : env.parse a.dimensions with
  | error e => simp
  | ok dl =>
    cases hi : env.parse a.insufficient_data_actions with
    | error e => simp
    | ok il =>
      cases ho : env.parse a.ok_actions with
      | error e => simp
      | ok ol =>
        cases hc : env.client "cloudwatch" with
        | error e => simp [hc]
        | ok u =>
          cases hcall : env.call "cloudwatch" "put_metric_alarm"
              (.pydict (build_alarm_params a dl il ol)) with
          | error e =>
            refine Or.inr (Or.inr (Exists.intro dl (Exists.intro il (Exists.intro ol
              (And.intro rfl (And.intro rfl (And.intro rfl ?_)))))))
            simp [hc, hcall]
          | ok v =>
            refine Or.inr (Or.inr (Exists.intro dl (Exists.intro il (Exists.intro ol
              (And.intro rfl (And.intro rfl (And.intro rfl ?_)))))))
            simp [hc, hcall]

/-- C4: a parameters string that does not parse as JSON always yields a
`Failure` containing "Invalid JSON" (the function is total: no exception
reaches the caller), and a payload parsing to JSON `null` is normalized
to the empty parameter object before any dispatch. -/
theorem invoke_invalid_json_and_null_normalization (env : Env)
    (service operation parameters : String) :
    (∀ e, env.parse parameters = Except.error e →
      invoke_aws_api env service operation parameters
        = (.failure ("Invalid JSON in parameters: " ++ e), [])
      ∧ mentions (errorText (invoke_aws_api env service operation parameters).1)
          "Invalid JSON" = true)
    ∧ (env.parse parameters = Except.ok PyValue.pynone →
      ∀ s o p, Event.apiCall s o p ∈ (invoke_aws_api env service operation parameters).2 →
        p = PyValue.pydict []) := by
  constructor
  · intro e hp
    have hmain : invoke_aws_api env service operation parameters
        = (.failure ("Invalid JSON in parameters: " ++ e), []) := by
      unfold invoke_aws_api
      rw [hp]
    refine ⟨hmain, ?_⟩
    rw [hmain]
    show mentions ("Invalid JSON in parameters: " ++ e) "Invalid JSON" = true
    simp only [mentions, String.data_append]
    exact hasInfix_append_right _ _ (by decide) _
  · intro hp s o p hmem
    rcases invoke_aws_api_trace_shape env service operation parameters with h | h | h | ⟨parsed, hp2, h⟩
    · rw [h] at hmem
      simp at hmem
    · rw [h] at hmem
      simp at hmem
    · rw [h] at hmem
      simp at hmem
    · have hpar : parsed = PyValue.pynone := Except.ok.inj (hp2.symm.trans hp)
      subst hpar
      rw [h] at hmem
      simp [isPyNone] at hmem
      exact hmem.2.2

/-- Witness for C4: the invalid-JSON failure at a concrete input, and the
`null` payload dispatched as the empty object under `sampleEnv`. -/
theorem invoke_invalid_json_and_null_normalization_witness :
    invoke_aws_api sampleEnv "ec2" "describe_instances" "not valid json"
      = (.failure "Invalid JSON in parameters: Expecting value: line 1 column 1 (char 0)", [])
    ∧ PyValue.pydict [] = PyValue.pydict [] := by
  refine ⟨?_, ?_⟩
  · exact ((invoke_invalid_json_and_null_normalization sampleEnv "ec2" "describe_instances"
      "not valid json").1 "Expecting value: line 1 column 1 (char 0)" rfl).1
  · exact (invoke_invalid_json_and_null_normalization sampleEnv "ec2" "describe_instances"
      "null").2 rfl "ec2" "describe_instances" (PyValue.pydict [])
      (List.Mem.tail _ (List.Mem.tail _ (List.Mem.head _)))

/-- C8: on the success path the provider result is JSON round-tripped
with every `datetime` leaf replaced by its ISO-8601 `isoformat()` string;
if that encoding fails the response degrades to the result's `str()`
rendering; and the result is wrapped as a `Success` whose `function`
field is "invoke_aws_api" and which echoes the given service and
operation. -/
theorem invoke_aws_api_success_serialization (env : Env)
    (service operation parameters : String) (parsed v : PyValue)
    (hp : env.parse parameters = Except.ok parsed)
    (hro : is_read_operation operation = true)
    (hs : service ≠ "") (ho : operation ≠ "")
    (hc : env.client service = Except.ok ())
    (hr : env.resolve service operation = true)
    (hcall : env.call service operation
        (if isPyNone parsed then PyValue.pydict [] else parsed) = Except.ok v) :
    invoke_aws_api env service operation parameters
      = (.success "invoke_aws_api" service operation (serialized_response v),
         [.classifierQuery operation, .clientCreate service,
          .apiCall service operation (if isPyNone parsed then PyValue.pydict [] else parsed)])
    ∧ (∀ iso sf, serialize_roundtrip (.pydatetime iso sf) = some (.pystr iso))
    ∧ (∀ w, serialize_roundtrip w = none → serialized_response w = .pystr (pyStr w)) := by
  refine ⟨?_, ?_, ?_⟩
  · unfold invoke_aws_api
    rw [hp]
    simp [hro, hs, ho, hc, hr, hcall]
  · intro iso sf
    simp [serialize_roundtrip]
  · intro w hw
    simp [serialized_response, hw]

/-- Witness for C8: the concrete success under `sampleEnv`, plus the
datetime-to-ISO substitution at a concrete timestamp. -/
theorem invoke_aws_api_success_serialization_witness :
    invoke_aws_api sampleEnv "ec2" "describe_instances" "\x7b\x7d"
      = (.success "invoke_aws_api" "ec2" "describe_instances"
           (.pydict [("Reservations", .pylist [])]),
         [.classifierQuery "describe_instances", .clientCreate "ec2",
          .apiCall "ec2" "describe_instances" (.pydict [])])
    ∧ serialize_roundtrip (.pydatetime "2024-05-01T12:00:00+00:00" "2024-05-01 12:00:00+00:00")
        = some (.pystr "2024-05-01T12:00:00+00:00") := by
  have h := invoke_aws_api_success_serialization sampleEnv "ec2" "describe_instances" "\x7b\x7d"
    (.pydict []) (.pydict [("Reservations", .pylist [])]) rfl (by decide) (by decide) (by decide)
    rfl rfl rfl
  refine ⟨?_, h.2.1 "2024-05-01T12:00:00+00:00" "2024-05-01 12:00:00+00:00"⟩
  rw [h.1]
  simp [serialized_response, serialize_roundtrip, serializeDict, serializeList]

/-- C9: on every input to `put_metric_alarm` the read-only classifier is
never consulted (no classifier query ever appears in its trace), and any
parameter dict it dispatches to the provider contains the hard-coded
`AlarmActions` entry naming the invoke-investigator function ARN. -/
theorem put_metric_alarm_bypasses_gate (env : Env) (a : AlarmArgs) :
    (∀ o, Event.classifierQuery o ∉ (put_metric_alarm env a).2)
    ∧ (∀ s o kvs, Event.apiCall s o (.pydict kvs) ∈ (put_metric_alarm env a).2 →
        ("AlarmActions", PyValue.pylist [.pystr invokeInvestigatorArn]) ∈ kvs) := by
  constructor
  · intro o hmem
    rcases put_metric_alarm_trace_shape env a with h | h | ⟨dl, il, ol, _, _, _, h⟩ <;>
      rw [h] at hmem <;> simp at hmem
  · intro s o kvs hmem
    rcases put_metric_alarm_trace_shape env a with h | h | ⟨dl, il, ol, _, _, _, h⟩ <;>
      rw [h] at hmem
    · simp at hmem
    · simp at hmem
    · simp only [List.mem_cons, List.not_mem_nil, or_false] at hmem
      rcases hmem with hmem | hmem
      · exact absurd hmem (by simp)
      · have hkvs : kvs = build_alarm_params a dl il ol := by
          injection hmem with h1 h2 h3x
          injection h3x with hk
        subst hkvs
        simp [build_alarm_params]

/-- Witness for C9: the concrete alarm creation under `sampleEnv` never
queries the classifier, and its built parameters carry the hard-coded
action. -/
theorem put_metric_alarm_bypasses_gate_witness :
    Event.classifierQuery "put_metric_alarm" ∉ (put_metric_alarm sampleEnv sampleAlarmArgs).2
    ∧ ("AlarmActions", PyValue.pylist [.pystr invokeInvestigatorArn])
        ∈ build_alarm_params sampleAlarmArgs (.pylist []) (.pylist []) (.pylist []) := by
  refine ⟨(put_metric_alarm_bypasses_gate sampleEnv sampleAlarmArgs).1 "put_metric_alarm", ?_⟩
  exact (put_metric_alarm_bypasses_gate sampleEnv sampleAlarmArgs).2 "cloudwatch"
    "put_metric_alarm" (build_alarm_params sampleAlarmArgs (.pylist []) (.pylist []) (.pylist []))
    (List.Mem.tail _ (List.Mem.head _))
